import Mathlib

/-!
# Process-execution helpers of `examples/systemcalls/systemcalls.c`

A shallow embedding of `do_system`, `do_exec` and `do_exec_redirect`.

* The C functions are embedded as Lean functions over an explicit record of
  system-call answers (`Sys`) and an explicit process state (`Proc`: the
  descriptor table, the file contents and the trace of calls made so far).
* `fork` returns twice.  One Lean function describes the code that *either*
  process executes; the value `Sys.fork` tells which one is running
  (`-1`: creation failed, `0`: the child, anything else: the parent).
* A process leaves the function in one of three ways (`Outcome`): it returns a
  boolean to its caller, it terminates through `exit`, or `execv` succeeds and
  its image is replaced.
* `call_do_exec` / `call_do_exec_redirect` put the two processes together:
  the child runs to termination, its termination is encoded as a wait status,
  and the parent reads that status back through `waitpid`.

`int` values are modelled as `Int`; the bit operations of the wait-status
macros are written with `/` and `%` (floor division and non-negative
remainder by a power of two), which agree with `>>` and `&` on two's
complement integers.
-/

namespace Systemcalls

/-! ## Platform constants and wait-status macros

These come from the C library headers (`<stdlib.h>`, `<unistd.h>`, `<fcntl.h>`,
`<sys/wait.h>`), not from the repository; the values are those of glibc on
Linux. -/

/-- Platform constant `EXIT_FAILURE` of `<stdlib.h>`. -/
def EXIT_FAILURE : Int := 1

/-- Platform constant `STDOUT_FILENO` of `<unistd.h>`. -/
def STDOUT_FILENO : Int := 1

/-- Platform constant `O_WRONLY` of `<fcntl.h>`. -/
def O_WRONLY : Nat := 0o1

/-- Platform constant `O_CREAT` of `<fcntl.h>`. -/
def O_CREAT : Nat := 0o100

/-- Platform constant `O_TRUNC` of `<fcntl.h>`. -/
def O_TRUNC : Nat := 0o1000

/-- Platform macro `WTERMSIG(status)`, that is `status & 0x7f`. -/
def WTERMSIG (status : Int) : Int := status % 128

/-- Platform macro `WIFEXITED(status)`, that is `WTERMSIG(status) == 0`. -/
def WIFEXITED (status : Int) : Bool := WTERMSIG status == 0

/-- Platform macro `WEXITSTATUS(status)`, that is `(status & 0xff00) >> 8`. -/
def WEXITSTATUS (status : Int) : Int := (status / 256) % 256

/-- Platform macro `WIFSIGNALED(status)`, that is
`((signed char) ((status & 0x7f) + 1) >> 1) > 0`: the value `(status & 0x7f) + 1`
lies in `1 .. 128`, and `128` becomes `-128` as a `signed char`. -/
def WIFSIGNALED (status : Int) : Bool :=
  let v := status % 128 + 1
  let c := if 128 ≤ v then v - 256 else v
  decide (0 < c / 2)

/-- How a process ends. -/
inductive Termination where
  /-- The process called `exit(code)` (or returned `code` from `main`). -/
  | exited (code : Int)
  /-- The process was killed by signal `sig`; `core` tells whether it dumped core. -/
  | signaled (sig : Nat) (core : Bool)
  deriving DecidableEq, Repr

/-- The wait status the kernel reports for a terminated child
(`W_EXITCODE(ret, sig)` is `ret << 8 | sig`, `__WCOREFLAG` is `0x80`): only the
low eight bits of the value given to `exit` are delivered. -/
def waitStatus : Termination → Int
  | Termination.exited code => (code % 256) * 256
  | Termination.signaled sig core => (sig : Int) % 128 + (if core then 128 else 0)

/-! ## `do_system` -/

/-- The function `do_system` (systemcalls.c, lines 10-39).  The library call
`system` is a parameter: it maps the command line to the `int` it returns. -/
def do_system (system : String → Int) (cmd : String) : Bool :=
  let result := system cmd
  if result == -1 then
    false
  else if WIFEXITED result && WEXITSTATUS result == 0 then
    true
  else
    false

/-! ## Process state and the system calls used by `do_exec` / `do_exec_redirect` -/

/-- Platform constant `O_RDWR` of `<fcntl.h>`. -/
def O_RDWR : Nat := 0o2

/-- Platform constant `O_ACCMODE` of `<fcntl.h>`. -/
def O_ACCMODE : Nat := 0o3

/-- What an open file descriptor refers to. -/
inductive Desc where
  /-- Something the process was started with (a terminal, a pipe, ...). -/
  | inherited (id : Nat)
  /-- The open file description created by `open(path, flags, mode)`. -/
  | opened (path : String) (flags mode : Nat)
  deriving DecidableEq, Repr

/-- The descriptor table of a process: `none` is a closed descriptor. -/
abbrev FdTable := Nat → Option Desc

/-- File contents. -/
abbrev Bytes := List UInt8

/-- The regular files, by path: `none` is a file that does not exist. -/
abbrev Files := String → Option Bytes

/-- One call made by the process, with the value it returned. -/
inductive Call where
  | fork (ret : Int)
  | execv (path : Option String) (argv : List String) (loaded : Bool)
  | waitpid (pid options ret : Int)
  | open_file (path : String) (flags mode : Nat) (ret : Int)
  | dup2 (oldfd newfd ret : Int)
  | close (fd ret : Int)
  | perror (s : String)
  deriving DecidableEq, Repr

/-- A program that `execv` can load: from its argument vector, the descriptor
table it starts with and the files, to the files it leaves and how it ends. -/
abbrev Program := List String → FdTable → Files → Files × Termination

/-- The answers of the operating system to the calling process. -/
structure Sys where
  /-- The value `fork()` returns in this process. -/
  fork : Int
  /-- The value `waitpid(pid, &status, options)` returns, and the status it stores. -/
  waitpid : Int → Int → Int × Int
  /-- The path cannot be opened for writing (missing directory, permissions, ...). -/
  openFails : String → Bool
  /-- The number of descriptors a process may have (`RLIMIT_NOFILE`). -/
  nofile : Nat
  /-- The call `dup2` fails although both descriptors are valid (`EINTR`, `EBUSY`). -/
  dup2Fails : Bool
  /-- The executable files: `none` is a path `execv` cannot load. -/
  image : String → Option Program

/-- The state of the process executing the function. -/
structure Proc where
  fds : FdTable
  files : Files
  trace : List Call

/-- How the process leaves the function. -/
inductive Outcome where
  /-- The function returned the boolean to its caller. -/
  | returned (b : Bool)
  /-- The process terminated through `exit(code)`. -/
  | exited (code : Int)
  /-- The call `execv(path, argv)` succeeded: the process now runs another program. -/
  | replaced (path : Option String) (argv : List String)
  deriving DecidableEq, Repr

/-- Append a call to the trace. -/
def record (p : Proc) (c : Call) : Proc :=
  { fds := p.fds, files := p.files, trace := p.trace ++ [c] }

/-- Descriptor table update. -/
def setFd (fds : FdTable) (fd : Nat) (d : Option Desc) : FdTable :=
  fun n => if n = fd then d else fds n

/-- File contents update. -/
def setFile (files : Files) (path : String) (content : Bytes) : Files :=
  fun q => if q = path then some content else files q

/-- The lowest descriptor below the limit that is not open. -/
def lowestFree (fds : FdTable) (nofile : Nat) : Option Nat :=
  (List.range nofile).find? (fun n => (fds n).isNone)

/-- The library call `perror`: a diagnostic on standard error. -/
def perror (p : Proc) (s : String) : Proc :=
  record p (Call.perror s)

/-- The system call `fork`, as seen by one of the two processes. -/
def sys_fork (sys : Sys) (p : Proc) : Int × Proc :=
  (sys.fork, record p (Call.fork sys.fork))

/-- The system call `waitpid(pid, &status, options)`: the returned value, the
status stored and the new state. -/
def sys_waitpid (sys : Sys) (p : Proc) (pid options : Int) : Int × Int × Proc :=
  ((sys.waitpid pid options).1, (sys.waitpid pid options).2,
    record p (Call.waitpid pid options (sys.waitpid pid options).1))

/-- The system call `open(path, flags, mode)`: it fails with `-1`, or returns
the lowest free descriptor, which then refers to a new open file description;
`O_CREAT` creates a missing file and `O_TRUNC` empties an existing one. -/
def sys_open (sys : Sys) (p : Proc) (path : String) (flags mode : Nat) : Int × Proc :=
  if sys.openFails path then
    (-1, record p (Call.open_file path flags mode (-1)))
  else if (p.files path).isNone && flags &&& O_CREAT == 0 then
    (-1, record p (Call.open_file path flags mode (-1)))
  else
    match lowestFree p.fds sys.nofile with
    | none => (-1, record p (Call.open_file path flags mode (-1)))
    | some fd =>
      let content := if flags &&& O_TRUNC == 0 then (p.files path).getD [] else []
      ((fd : Int),
        { fds := setFd p.fds fd (some (Desc.opened path flags mode)),
          files := setFile p.files path content,
          trace := p.trace ++ [Call.open_file path flags mode (fd : Int)] })

/-- The system call `dup2(oldfd, newfd)`: with `oldfd` open and `newfd` in
range, `newfd` is made to refer to what `oldfd` refers to (closing `newfd`
first); when both are equal nothing is done and `newfd` is returned. -/
def sys_dup2 (sys : Sys) (p : Proc) (oldfd newfd : Int) : Int × Proc :=
  if oldfd < 0 || (p.fds oldfd.toNat).isNone then
    (-1, record p (Call.dup2 oldfd newfd (-1)))
  else if newfd < 0 || decide ((sys.nofile : Int) ≤ newfd) then
    (-1, record p (Call.dup2 oldfd newfd (-1)))
  else if sys.dup2Fails then
    (-1, record p (Call.dup2 oldfd newfd (-1)))
  else if oldfd == newfd then
    (newfd, record p (Call.dup2 oldfd newfd newfd))
  else
    (newfd,
      { fds := setFd p.fds newfd.toNat (p.fds oldfd.toNat),
        files := p.files,
        trace := p.trace ++ [Call.dup2 oldfd newfd newfd] })

/-- The system call `close(fd)`. -/
def sys_close (p : Proc) (fd : Int) : Int × Proc :=
  if fd < 0 || (p.fds fd.toNat).isNone then
    (-1, record p (Call.close fd (-1)))
  else
    (0,
      { fds := setFd p.fds fd.toNat none,
        files := p.files,
        trace := p.trace ++ [Call.close fd 0] })

/-- The system call `execv(path, argv)`: `true` when the image was replaced (the
call does not return), `false` when the call returned `-1`.  A null `path`
(empty command vector) cannot be loaded. -/
def sys_execv (sys : Sys) (p : Proc) (path : Option String) (argv : List String) :
    Bool × Proc :=
  match path with
  | none => (false, record p (Call.execv none argv false))
  | some f =>
    ((sys.image f).isSome, record p (Call.execv (some f) argv (sys.image f).isSome))

/-- The system call `write(fd, data, n)` of a whole output at the start of a
freshly opened description: the bytes replace the beginning of the file.
Output to an inherited descriptor leaves the regular files alone, and output
to a closed or read-only descriptor is lost. -/
def sys_write (fds : FdTable) (files : Files) (fd : Nat) (data : Bytes) : Files :=
  match fds fd with
  | some (Desc.opened path flags _) =>
    if flags &&& O_ACCMODE == O_WRONLY || flags &&& O_ACCMODE == O_RDWR then
      setFile files path (data ++ ((files path).getD []).drop data.length)
    else files
  | _ => files

/-! ## `do_exec` and `do_exec_redirect` -/

/-- The function `do_exec` (systemcalls.c, lines 55-121).  The variadic
arguments are the list `command`; `command[0]` is its head (null when the list
is empty, since `command[count] = NULL`). -/
def do_exec (sys : Sys) (fds : FdTable) (files : Files) (command : List String) :
    Outcome × Proc :=
  let p0 : Proc := { fds := fds, files := files, trace := [] }
  let f := sys_fork sys p0
  let pid := f.1
  if pid == -1 then
    (Outcome.returned false, perror f.2 "fork")
  else if pid == 0 then
    let e := sys_execv sys f.2 command.head? command
    if e.1 then
      (Outcome.replaced command.head? command, e.2)
    else
      (Outcome.exited EXIT_FAILURE, perror e.2 "execv")
  else
    let w := sys_waitpid sys f.2 pid 0
    let status := w.2.1
    if w.1 == -1 then
      (Outcome.returned false, perror w.2.2 "waitpid")
    else if WIFEXITED status && WEXITSTATUS status == 0 then
      (Outcome.returned true, w.2.2)
    else
      (Outcome.returned false, w.2.2)

/-- The function `do_exec_redirect` (systemcalls.c, lines 128-216). -/
def do_exec_redirect (sys : Sys) (fds : FdTable) (files : Files) (outputfile : String)
    (command : List String) : Outcome × Proc :=
  let p0 : Proc := { fds := fds, files := files, trace := [] }
  let f := sys_fork sys p0
  let pid := f.1
  if pid == -1 then
    (Outcome.returned false, perror f.2 "fork")
  else if pid == 0 then
    let o := sys_open sys f.2 outputfile (O_WRONLY ||| O_CREAT ||| O_TRUNC) 0o644
    let fd := o.1
    if fd == -1 then
      (Outcome.exited EXIT_FAILURE, perror o.2 "open")
    else
      let d := sys_dup2 sys o.2 fd STDOUT_FILENO
      if d.1 == -1 then
        let c := sys_close (perror d.2 "dup2") fd
        (Outcome.exited EXIT_FAILURE, c.2)
      else
        let c := sys_close d.2 fd
        let e := sys_execv sys c.2 command.head? command
        if e.1 then
          (Outcome.replaced command.head? command, e.2)
        else
          (Outcome.exited EXIT_FAILURE, perror e.2 "execv")
  else
    let w := sys_waitpid sys f.2 pid 0
    let status := w.2.1
    if w.1 == -1 then
      (Outcome.returned false, perror w.2.2 "waitpid")
    else if WIFEXITED status && WEXITSTATUS status == 0 then
      (Outcome.returned true, w.2.2)
    else
      (Outcome.returned false, w.2.2)

/-! ## The two processes together -/

/-- The child's view of the system: in the child `fork` returns `0`. -/
def childSys (sys : Sys) : Sys :=
  { fork := 0, waitpid := sys.waitpid, openFails := sys.openFails, nofile := sys.nofile,
    dup2Fails := sys.dup2Fails, image := sys.image }

/-- The parent's view of the system once the child has ended with `t`: a
successful `waitpid` stores the wait status of `t`. -/
def parentSys (sys : Sys) (t : Termination) : Sys :=
  { fork := sys.fork,
    waitpid := fun pid options => ((sys.waitpid pid options).1, waitStatus t),
    openFails := sys.openFails, nofile := sys.nofile,
    dup2Fails := sys.dup2Fails, image := sys.image }

/-- How the child ends and the files it leaves, from the way it left the
function: after `exit(code)` it has exited with `code`; after a successful
`execv` the loaded program runs on the child's descriptor table.  A child
that returned from the function would carry on in the caller's code, which
this development does not describe (`none`). -/
def childEnd (sys : Sys) (r : Outcome × Proc) : Option (Termination × Files) :=
  match r.1 with
  | Outcome.returned _ => none
  | Outcome.exited code => some (Termination.exited code, r.2.files)
  | Outcome.replaced path argv =>
    match path.bind sys.image with
    | none => none
    | some prog => some ((prog argv r.2.fds r.2.files).2, (prog argv r.2.fds r.2.files).1)

/-- A call of `do_exec` seen from the caller: the outcome in the calling
process and the files afterwards.  Without a child (`fork` returned `-1`) only
the caller runs; otherwise the child runs to its end and the caller waits. -/
def call_do_exec (sys : Sys) (fds : FdTable) (files : Files) (command : List String) :
    Option (Outcome × Files) :=
  if sys.fork == -1 then
    some ((do_exec sys fds files command).1, files)
  else
    match childEnd sys (do_exec (childSys sys) fds files command) with
    | none => none
    | some (t, files1) => some ((do_exec (parentSys sys t) fds files1 command).1, files1)

/-- A call of `do_exec_redirect` seen from the caller. -/
def call_do_exec_redirect (sys : Sys) (fds : FdTable) (files : Files) (outputfile : String)
    (command : List String) : Option (Outcome × Files) :=
  if sys.fork == -1 then
    some ((do_exec_redirect sys fds files outputfile command).1, files)
  else
    match childEnd sys (do_exec_redirect (childSys sys) fds files outputfile command) with
    | none => none
    | some (t, files1) =>
      some ((do_exec_redirect (parentSys sys t) fds files1 outputfile command).1, files1)

/-- A program that writes `content` to its standard output and exits with `code`. -/
def writer (content : Bytes) (code : Int) : Program :=
  fun _ fds files => (sys_write fds files 1 content, Termination.exited code)

/-- The standard descriptor table: `0`, `1` and `2` are open, the rest is closed. -/
def stdFds : FdTable :=
  fun n => if n < 3 then some (Desc.inherited n) else none

/-- No regular file exists. -/
def noFiles : Files := fun _ => none

/-! ## Reading traces -/

/-- The call is a `fork`. -/
def Call.isFork : Call → Bool
  | Call.fork _ => true
  | _ => false

/-- The call is a `waitpid`. -/
def Call.isWaitpid : Call → Bool
  | Call.waitpid _ _ _ => true
  | _ => false

/-- The call is an `execv`. -/
def Call.isExecv : Call → Bool
  | Call.execv _ _ _ => true
  | _ => false

/-! ## Concrete systems, used to run the functions on examples -/

/-- A system in which every call succeeds: `fork` returns the child's pid 42 to
the caller, `waitpid` returns the pid it was given, and four programs exist. -/
def demoSys : Sys :=
  { fork := 42,
    waitpid := fun pid _ => (pid, 0),
    openFails := fun _ => false,
    nofile := 16,
    dup2Fails := false,
    image := fun path =>
      if path = "/bin/true" then some (writer [] 0)
      else if path = "/bin/false" then some (writer [] 1)
      else if path = "/bin/hello" then some (writer [104, 101, 108, 108, 111] 0)
      else if path = "/bin/bye" then some (writer [98, 121, 101] 0)
      else if path = "/bin/exit256" then some (writer [] 256)
      else none }

/-- A system like `demoSys` in which no path can be opened for writing. -/
def readOnlySys : Sys :=
  { fork := 42, waitpid := fun pid _ => (pid, 0), openFails := fun _ => true, nofile := 16,
    dup2Fails := false, image := demoSys.image }

/-- The calls that `do_exec_redirect` makes for `command` all succeed, and the
program loaded from `command[0]` writes `content` to its standard output and
exits with status 0. -/
structure RunsWriter (sys : Sys) (fds : FdTable) (outputfile : String)
    (command : List String) (content : Bytes) : Prop where
  /-- The call `fork` creates a child. -/
  fork_ok : sys.fork ≠ -1
  /-- The process described is the caller, not the child. -/
  parent : sys.fork ≠ 0
  /-- The output file can be opened. -/
  open_ok : sys.openFails outputfile = false
  /-- A descriptor is free for `open`. -/
  free : (lowestFree fds sys.nofile).isSome = true
  /-- Descriptor 1 is below the descriptor limit. -/
  limit : 1 < sys.nofile
  /-- The call `dup2` does not fail. -/
  dup2_ok : sys.dup2Fails = false
  /-- The program at `command[0]` writes `content` and exits 0. -/
  prog : command.head?.bind sys.image = some (writer content 0)
  /-- The call `waitpid` does not fail. -/
  wait_ok : (sys.waitpid sys.fork 0).1 ≠ -1

/-- A descriptor table in which standard input and standard output are closed:
only `2` is open. -/
def closedStdinStdout : FdTable :=
  fun n => if n = 2 then some (Desc.inherited 2) else none

/-- A descriptor table in which standard output is closed: `0` and `2` are
open, everything else is closed. -/
def closedStdout : FdTable :=
  fun n => if n = 0 then some (Desc.inherited 0) else if n = 2 then some (Desc.inherited 2)
    else none

/-! ## Facts about the wait-status macros -/

theorem WIFEXITED_iff (status : Int) : WIFEXITED status = true ↔ status % 128 = 0 := by
  simp [WIFEXITED, WTERMSIG]

theorem WIFSIGNALED_iff (status : Int) :
    WIFSIGNALED status = true ↔ 1 ≤ status % 128 ∧ status % 128 ≤ 126 := by
  simp only [WIFSIGNALED, decide_eq_true_eq]
  split_ifs <;> omega

theorem not_WIFEXITED_of_WIFSIGNALED (status : Int) (h : WIFSIGNALED status = true) :
    WIFEXITED status = false := by
  have h1 := (WIFSIGNALED_iff status).1 h
  cases hq : WIFEXITED status
  · rfl
  · have h2 := (WIFEXITED_iff status).1 hq
    omega

theorem WIFEXITED_waitStatus_exited (code : Int) :
    WIFEXITED (waitStatus (Termination.exited code)) = true := by
  rw [WIFEXITED_iff]
  simp only [waitStatus]
  omega

theorem WEXITSTATUS_waitStatus_exited (code : Int) :
    WEXITSTATUS (waitStatus (Termination.exited code)) = code % 256 := by
  simp only [WEXITSTATUS, waitStatus]
  omega

theorem WIFSIGNALED_waitStatus_signaled (sig : Nat) (core : Bool) (h1 : 0 < sig)
    (h2 : sig < 127) : WIFSIGNALED (waitStatus (Termination.signaled sig core)) = true := by
  rw [WIFSIGNALED_iff]
  simp only [waitStatus]
  cases core <;> simp <;> omega

/-! ## The branches of `do_exec` and `do_exec_redirect` -/

theorem do_exec_fork_failed (sys : Sys) (fds : FdTable) (files : Files)
    (command : List String) (h : sys.fork = -1) :
    do_exec sys fds files command =
      (Outcome.returned false,
        { fds := fds, files := files, trace := [Call.fork (-1), Call.perror "fork"] }) := by
  simp [do_exec, sys_fork, perror, record, h]

theorem do_exec_parent (sys : Sys) (fds : FdTable) (files : Files)
    (command : List String) (h1 : sys.fork ≠ -1) (h0 : sys.fork ≠ 0) :
    do_exec sys fds files command =
      (Outcome.returned (decide ((sys.waitpid sys.fork 0).1 ≠ -1) &&
          (WIFEXITED (sys.waitpid sys.fork 0).2 && WEXITSTATUS (sys.waitpid sys.fork 0).2 == 0)),
        { fds := fds, files := files,
          trace := [Call.fork sys.fork, Call.waitpid sys.fork 0 (sys.waitpid sys.fork 0).1] ++
            if (sys.waitpid sys.fork 0).1 = -1 then [Call.perror "waitpid"] else [] }) := by
  simp only [do_exec, sys_fork, sys_waitpid, perror, record, beq_iff_eq, h1, h0, if_false]
  by_cases hw : (sys.waitpid sys.fork 0).1 = -1
  · simp [hw]
  · by_cases hs : (WIFEXITED (sys.waitpid sys.fork 0).2 && WEXITSTATUS (sys.waitpid sys.fork 0).2 == 0) = true
    · simp [hw, hs]
    · simp [hw, hs]

theorem do_exec_child (sys : Sys) (fds : FdTable) (files : Files)
    (command : List String) (h : sys.fork = 0) :
    do_exec sys fds files command =
      if (command.head?.bind sys.image).isSome then
        (Outcome.replaced command.head? command,
          { fds := fds, files := files,
            trace := [Call.fork 0, Call.execv command.head? command true] })
      else
        (Outcome.exited EXIT_FAILURE,
          { fds := fds, files := files,
            trace := [Call.fork 0, Call.execv command.head? command false,
              Call.perror "execv"] }) := by
  cases hc : command.head? with
  | none => simp [do_exec, sys_fork, sys_execv, perror, record, h, hc]
  | some f =>
    cases hi : sys.image f <;>
      simp [do_exec, sys_fork, sys_execv, perror, record, h, hc, hi]

theorem do_exec_redirect_fork_failed (sys : Sys) (fds : FdTable) (files : Files)
    (outputfile : String) (command : List String) (h : sys.fork = -1) :
    do_exec_redirect sys fds files outputfile command =
      (Outcome.returned false,
        { fds := fds, files := files, trace := [Call.fork (-1), Call.perror "fork"] }) := by
  simp [do_exec_redirect, sys_fork, perror, record, h]

theorem do_exec_redirect_parent (sys : Sys) (fds : FdTable) (files : Files)
    (outputfile : String) (command : List String) (h1 : sys.fork ≠ -1) (h0 : sys.fork ≠ 0) :
    do_exec_redirect sys fds files outputfile command =
      (Outcome.returned (decide ((sys.waitpid sys.fork 0).1 ≠ -1) &&
          (WIFEXITED (sys.waitpid sys.fork 0).2 && WEXITSTATUS (sys.waitpid sys.fork 0).2 == 0)),
        { fds := fds, files := files,
          trace := [Call.fork sys.fork, Call.waitpid sys.fork 0 (sys.waitpid sys.fork 0).1] ++
            if (sys.waitpid sys.fork 0).1 = -1 then [Call.perror "waitpid"] else [] }) := by
  simp only [do_exec_redirect, sys_fork, sys_waitpid, perror, record, beq_iff_eq, h1, h0,
    if_false]
  by_cases hw : (sys.waitpid sys.fork 0).1 = -1
  · simp [hw]
  · by_cases hs : (WIFEXITED (sys.waitpid sys.fork 0).2 && WEXITSTATUS (sys.waitpid sys.fork 0).2 == 0) = true
    · simp [hw, hs]
    · simp [hw, hs]

theorem setFd_same (fds : FdTable) (fd : Nat) (d : Option Desc) : setFd fds fd d fd = d := by
  simp [setFd]

theorem setFd_other (fds : FdTable) (fd n : Nat) (d : Option Desc) (h : n ≠ fd) :
    setFd fds fd d n = fds n := by
  simp [setFd, h]

theorem redirect_flags_creat : (O_WRONLY ||| O_CREAT ||| O_TRUNC) &&& O_CREAT = 64 := by decide

theorem redirect_flags_trunc : (O_WRONLY ||| O_CREAT ||| O_TRUNC) &&& O_TRUNC = 512 := by decide

theorem redirect_flags_accmode :
    (O_WRONLY ||| O_CREAT ||| O_TRUNC) &&& O_ACCMODE = O_WRONLY := by decide

theorem lowestFree_isNone (fds : FdTable) (nofile fd : Nat)
    (h : lowestFree fds nofile = some fd) : fds fd = none ∧ fd < nofile := by
  unfold lowestFree at h
  have h1 := List.find?_some h
  have h2 := List.mem_of_find?_eq_some h
  simp at h1 h2
  exact ⟨h1, h2⟩

/-- The child of `do_exec_redirect` when `open` fails. -/
theorem redirect_child_open_fails (sys : Sys) (fds : FdTable) (files : Files)
    (outputfile : String) (command : List String) (h : sys.fork = 0)
    (ho : sys.openFails outputfile = true ∨ lowestFree fds sys.nofile = none) :
    do_exec_redirect sys fds files outputfile command =
      (Outcome.exited EXIT_FAILURE,
        { fds := fds, files := files,
          trace := [Call.fork 0,
            Call.open_file outputfile (O_WRONLY ||| O_CREAT ||| O_TRUNC) 0o644 (-1),
            Call.perror "open"] }) := by
  by_cases h1 : sys.openFails outputfile = true
  · simp [do_exec_redirect, sys_fork, sys_open, perror, record, h, h1]
  · have h2 : lowestFree fds sys.nofile = none := by tauto
    simp [do_exec_redirect, sys_fork, sys_open, perror, record, h, h1, h2,
      redirect_flags_creat]

/-- The child of `do_exec_redirect` when `open` succeeds and `dup2` fails. -/
theorem redirect_child_dup2_fails (sys : Sys) (fds : FdTable) (files : Files)
    (outputfile : String) (command : List String) (fd : Nat) (h : sys.fork = 0)
    (ho : sys.openFails outputfile = false) (hl : lowestFree fds sys.nofile = some fd)
    (hd : sys.nofile ≤ 1 ∨ sys.dup2Fails = true) :
    do_exec_redirect sys fds files outputfile command =
      (Outcome.exited EXIT_FAILURE,
        { fds := setFd (setFd fds fd
            (some (Desc.opened outputfile (O_WRONLY ||| O_CREAT ||| O_TRUNC) 0o644))) fd none,
          files := setFile files outputfile [],
          trace := [Call.fork 0,
            Call.open_file outputfile (O_WRONLY ||| O_CREAT ||| O_TRUNC) 0o644 fd,
            Call.dup2 fd 1 (-1), Call.perror "dup2", Call.close fd 0] }) := by
  have hne : ((fd : Int) = -1) = False := by
    apply eq_false; omega
  have hnn : ((fd : Int) < 0) = False := by
    apply eq_false; omega
  by_cases hn : sys.nofile ≤ 1
  · have hn2 : ((sys.nofile : Int) ≤ 1) := by omega
    simp [do_exec_redirect, sys_fork, sys_open, sys_dup2, sys_close, perror, record, h, ho, hl,
      redirect_flags_creat, redirect_flags_trunc, setFd_same, hne, hnn, STDOUT_FILENO, hn2]
  · have h2 : sys.dup2Fails = true := by tauto
    simp [do_exec_redirect, sys_fork, sys_open, sys_dup2, sys_close, perror, record, h, ho, hl,
      redirect_flags_creat, redirect_flags_trunc, setFd_same, hne, hnn, STDOUT_FILENO, h2]

/-- The child of `do_exec_redirect` when `open` and `dup2` succeed: it reaches `execv`. -/
theorem redirect_child_execv (sys : Sys) (fds : FdTable) (files : Files)
    (outputfile : String) (command : List String) (fd : Nat) (h : sys.fork = 0)
    (ho : sys.openFails outputfile = false) (hl : lowestFree fds sys.nofile = some fd)
    (hn : 1 < sys.nofile) (hd : sys.dup2Fails = false) :
    do_exec_redirect sys fds files outputfile command =
      (if (command.head?.bind sys.image).isSome then Outcome.replaced command.head? command
        else Outcome.exited EXIT_FAILURE,
        { fds :=
            if fd = 1 then
              setFd (setFd fds 1
                (some (Desc.opened outputfile (O_WRONLY ||| O_CREAT ||| O_TRUNC) 0o644))) 1 none
            else
              setFd (setFd (setFd fds fd
                (some (Desc.opened outputfile (O_WRONLY ||| O_CREAT ||| O_TRUNC) 0o644))) 1
                (some (Desc.opened outputfile (O_WRONLY ||| O_CREAT ||| O_TRUNC) 0o644))) fd none,
          files := setFile files outputfile [],
          trace := [Call.fork 0,
            Call.open_file outputfile (O_WRONLY ||| O_CREAT ||| O_TRUNC) 0o644 fd,
            Call.dup2 fd 1 1, Call.close fd 0,
            Call.execv command.head? command (command.head?.bind sys.image).isSome] ++
            if (command.head?.bind sys.image).isSome then [] else [Call.perror "execv"] }) := by
  have hne : ((fd : Int) = -1) = False := by
    apply eq_false; omega
  have hnn : ((fd : Int) < 0) = False := by
    apply eq_false; omega
  have hn2 : ((sys.nofile : Int) ≤ 1) = False := by
    apply eq_false; omega
  by_cases hf : fd = 1
  · subst hf
    cases hc : command.head? with
    | none =>
      simp [do_exec_redirect, sys_fork, sys_open, sys_dup2, sys_close, sys_execv, perror, record,
        h, ho, hl, redirect_flags_creat, redirect_flags_trunc, setFd_same, hn2,
        STDOUT_FILENO, hd, hc]
    | some f =>
      cases hi : sys.image f <;>
      simp [do_exec_redirect, sys_fork, sys_open, sys_dup2, sys_close, sys_execv, perror, record,
        h, ho, hl, redirect_flags_creat, redirect_flags_trunc, setFd_same, hn2,
        STDOUT_FILENO, hd, hi, hc]
  · have hf2 : ((fd : Int) = 1) = False := by
      apply eq_false; omega
    have hs : setFd (setFd fds fd
        (some (Desc.opened outputfile (O_WRONLY ||| O_CREAT ||| O_TRUNC) 0o644))) 1
        (some (Desc.opened outputfile (O_WRONLY ||| O_CREAT ||| O_TRUNC) 0o644)) fd =
        some (Desc.opened outputfile (O_WRONLY ||| O_CREAT ||| O_TRUNC) 0o644) := by
      rw [setFd_other _ _ _ _ hf, setFd_same]
    cases hc : command.head? with
    | none =>
      simp [do_exec_redirect, sys_fork, sys_open, sys_dup2, sys_close, sys_execv, perror, record,
        h, ho, hl, redirect_flags_creat, redirect_flags_trunc, setFd_same, hne, hnn, hn2,
        STDOUT_FILENO, hd, hf, hf2, hs, hc]
    | some f =>
      cases hi : sys.image f <;>
      simp [do_exec_redirect, sys_fork, sys_open, sys_dup2, sys_close, sys_execv, perror, record,
        h, ho, hl, redirect_flags_creat, redirect_flags_trunc, setFd_same, hne, hnn, hn2,
        STDOUT_FILENO, hd, hi, hf, hf2, hs, hc]


/-- The three ways the child of `do_exec_redirect` can go. -/
theorem redirect_child_cases (sys : Sys) (fds : FdTable) (files : Files)
    (outputfile : String) (command : List String) (h : sys.fork = 0) :
    (do_exec_redirect sys fds files outputfile command =
      (Outcome.exited EXIT_FAILURE,
        { fds := fds, files := files,
          trace := [Call.fork 0,
            Call.open_file outputfile (O_WRONLY ||| O_CREAT ||| O_TRUNC) 0o644 (-1),
            Call.perror "open"] })) ∨
    (∃ fd : Nat, fds fd = none ∧
      do_exec_redirect sys fds files outputfile command =
      (Outcome.exited EXIT_FAILURE,
        { fds := setFd (setFd fds fd
            (some (Desc.opened outputfile (O_WRONLY ||| O_CREAT ||| O_TRUNC) 0o644))) fd none,
          files := setFile files outputfile [],
          trace := [Call.fork 0,
            Call.open_file outputfile (O_WRONLY ||| O_CREAT ||| O_TRUNC) 0o644 fd,
            Call.dup2 fd 1 (-1), Call.perror "dup2", Call.close fd 0] })) ∨
    (∃ fd : Nat, fds fd = none ∧
      do_exec_redirect sys fds files outputfile command =
      (if (command.head?.bind sys.image).isSome then Outcome.replaced command.head? command
        else Outcome.exited EXIT_FAILURE,
        { fds :=
            if fd = 1 then
              setFd (setFd fds 1
                (some (Desc.opened outputfile (O_WRONLY ||| O_CREAT ||| O_TRUNC) 0o644))) 1 none
            else
              setFd (setFd (setFd fds fd
                (some (Desc.opened outputfile (O_WRONLY ||| O_CREAT ||| O_TRUNC) 0o644))) 1
                (some (Desc.opened outputfile (O_WRONLY ||| O_CREAT ||| O_TRUNC) 0o644))) fd none,
          files := setFile files outputfile [],
          trace := [Call.fork 0,
            Call.open_file outputfile (O_WRONLY ||| O_CREAT ||| O_TRUNC) 0o644 fd,
            Call.dup2 fd 1 1, Call.close fd 0,
            Call.execv command.head? command (command.head?.bind sys.image).isSome] ++
            if (command.head?.bind sys.image).isSome then [] else [Call.perror "execv"] })) := by
  by_cases ho : sys.openFails outputfile = true
  · exact Or.inl (redirect_child_open_fails sys fds files outputfile command h (Or.inl ho))
  · have ho2 : sys.openFails outputfile = false := by simpa using ho
    cases hl : lowestFree fds sys.nofile with
    | none =>
      exact Or.inl (redirect_child_open_fails sys fds files outputfile command h (Or.inr hl))
    | some fd =>
      have hfree := (lowestFree_isNone fds sys.nofile fd hl).1
      by_cases hd : sys.nofile ≤ 1 ∨ sys.dup2Fails = true
      · exact Or.inr (Or.inl ⟨fd, hfree,
          redirect_child_dup2_fails sys fds files outputfile command fd h ho2 hl hd⟩)
      · have hn : 1 < sys.nofile := by
          by_contra hc
          exact hd (Or.inl (by omega))
        have hd2 : sys.dup2Fails = false := by
          cases hq : sys.dup2Fails
          · rfl
          · exact absurd (Or.inr hq) hd
        exact Or.inr (Or.inr ⟨fd, hfree,
          redirect_child_execv sys fds files outputfile command fd h ho2 hl hn hd2⟩)

/-! ## The claims about `do_system` -/

/-- C2: `do_system` returns true exactly when `system` did not return `-1` and the
returned status denotes a normal exit with code 0; so it returns false when
`system` returns `-1`, when the status does not denote a normal exit, and when
the exit code is not 0, the shell's "command not found" status 127 included. -/
theorem do_system_true_iff (system : String → Int) (cmd : String) :
    (do_system system cmd = true ↔
      system cmd ≠ -1 ∧ WIFEXITED (system cmd) = true ∧ WEXITSTATUS (system cmd) = 0) ∧
    (do_system system cmd = false ↔
      system cmd = -1 ∨ WIFEXITED (system cmd) = false ∨ WEXITSTATUS (system cmd) ≠ 0) ∧
    (WIFSIGNALED (system cmd) = true → do_system system cmd = false) ∧
    (system cmd = waitStatus (Termination.exited 127) → do_system system cmd = false) := by
  have key : do_system system cmd = true ↔
      system cmd ≠ -1 ∧ WIFEXITED (system cmd) = true ∧ WEXITSTATUS (system cmd) = 0 := by
    unfold do_system
    by_cases h1 : system cmd = -1
    · simp [h1]
    · simp [h1]
  have key2 : do_system system cmd = false ↔
      system cmd = -1 ∨ WIFEXITED (system cmd) = false ∨ WEXITSTATUS (system cmd) ≠ 0 := by
    rw [← Bool.not_eq_true, key]
    by_cases h1 : system cmd = -1
    · simp [h1]
    · by_cases h2 : WIFEXITED (system cmd) = true
      · simp [h1, h2]
      · simp [h1, h2]
  refine ⟨key, key2, ?_, ?_⟩
  · intro h
    exact key2.2 (Or.inr (Or.inl (not_WIFEXITED_of_WIFSIGNALED _ h)))
  · intro h
    refine key2.2 (Or.inr (Or.inr ?_))
    rw [h, WEXITSTATUS_waitStatus_exited]
    decide

/-! ## The claims about the result of `do_exec` and `do_exec_redirect` -/

/-- C1: in the calling process (where `fork` does not return 0), `do_exec` returns
true if and only if `fork` succeeded, `waitpid` on the child succeeded and the
status it stored denotes a normal exit (`WIFEXITED`) with `WEXITSTATUS` 0; in
every other case it returns false. -/
theorem do_exec_true_iff (sys : Sys) (fds : FdTable) (files : Files)
    (command : List String) (hparent : sys.fork ≠ 0) :
    ((do_exec sys fds files command).1 = Outcome.returned true ↔
      sys.fork ≠ -1 ∧ (sys.waitpid sys.fork 0).1 ≠ -1 ∧
        WIFEXITED (sys.waitpid sys.fork 0).2 = true ∧
        WEXITSTATUS (sys.waitpid sys.fork 0).2 = 0) ∧
    ((do_exec sys fds files command).1 = Outcome.returned false ↔
      ¬ (sys.fork ≠ -1 ∧ (sys.waitpid sys.fork 0).1 ≠ -1 ∧
        WIFEXITED (sys.waitpid sys.fork 0).2 = true ∧
        WEXITSTATUS (sys.waitpid sys.fork 0).2 = 0)) := by
  by_cases h1 : sys.fork = -1
  · rw [do_exec_fork_failed sys fds files command h1]
    simp [h1]
  · rw [do_exec_parent sys fds files command h1 hparent]
    by_cases hw : (sys.waitpid sys.fork 0).1 = -1
    · simp [h1, hw]
    · by_cases he : WIFEXITED (sys.waitpid sys.fork 0).2 = true
      · by_cases hx : WEXITSTATUS (sys.waitpid sys.fork 0).2 = 0
        · simp [h1, hw, he, hx]
        · simp [h1, hw, he, hx]
      · simp [h1, hw, he]

/-- Witness for C1: the caller of `/bin/true` in the demonstration system. -/
theorem do_exec_true_iff_witness :
    demoSys.fork ≠ 0 ∧
    (((do_exec demoSys stdFds noFiles ["/bin/true"]).1 = Outcome.returned true ↔
      demoSys.fork ≠ -1 ∧ (demoSys.waitpid demoSys.fork 0).1 ≠ -1 ∧
        WIFEXITED (demoSys.waitpid demoSys.fork 0).2 = true ∧
        WEXITSTATUS (demoSys.waitpid demoSys.fork 0).2 = 0) ∧
    ((do_exec demoSys stdFds noFiles ["/bin/true"]).1 = Outcome.returned false ↔
      ¬ (demoSys.fork ≠ -1 ∧ (demoSys.waitpid demoSys.fork 0).1 ≠ -1 ∧
        WIFEXITED (demoSys.waitpid demoSys.fork 0).2 = true ∧
        WEXITSTATUS (demoSys.waitpid demoSys.fork 0).2 = 0))) :=
  ⟨by decide, do_exec_true_iff demoSys stdFds noFiles ["/bin/true"] (by decide)⟩

/-- C9: in the calling process, `do_exec_redirect` leaves with the same boolean as
`do_exec` for the same answers of `fork` and `waitpid` and the same wait
status; for a status that denotes termination by a signal, with or without a
core dump, both return false. -/
theorem do_exec_redirect_same_result (sys : Sys) (fds : FdTable) (files : Files)
    (outputfile : String) (command : List String) (hparent : sys.fork ≠ 0) :
    (∃ b, (do_exec sys fds files command).1 = Outcome.returned b ∧
      (do_exec_redirect sys fds files outputfile command).1 = Outcome.returned b) ∧
    (WIFSIGNALED (sys.waitpid sys.fork 0).2 = true →
      (do_exec sys fds files command).1 = Outcome.returned false ∧
      (do_exec_redirect sys fds files outputfile command).1 = Outcome.returned false) ∧
    (∀ (sig : Nat) (core : Bool), 0 < sig → sig < 127 →
      (sys.waitpid sys.fork 0).2 = waitStatus (Termination.signaled sig core) →
      (do_exec sys fds files command).1 = Outcome.returned false ∧
      (do_exec_redirect sys fds files outputfile command).1 = Outcome.returned false) := by
  have hsig : WIFSIGNALED (sys.waitpid sys.fork 0).2 = true →
      (do_exec sys fds files command).1 = Outcome.returned false ∧
      (do_exec_redirect sys fds files outputfile command).1 = Outcome.returned false := by
    intro hs
    have hne := not_WIFEXITED_of_WIFSIGNALED _ hs
    by_cases h1 : sys.fork = -1
    · rw [do_exec_fork_failed sys fds files command h1,
        do_exec_redirect_fork_failed sys fds files outputfile command h1]
      exact ⟨rfl, rfl⟩
    · rw [do_exec_parent sys fds files command h1 hparent,
        do_exec_redirect_parent sys fds files outputfile command h1 hparent]
      simp [hne]
  refine ⟨?_, hsig, ?_⟩
  · by_cases h1 : sys.fork = -1
    · rw [do_exec_fork_failed sys fds files command h1,
        do_exec_redirect_fork_failed sys fds files outputfile command h1]
      exact ⟨false, rfl, rfl⟩
    · rw [do_exec_parent sys fds files command h1 hparent,
        do_exec_redirect_parent sys fds files outputfile command h1 hparent]
      exact ⟨_, rfl, rfl⟩
  · intro sig core h0 h127 hst
    apply hsig
    rw [hst]
    exact WIFSIGNALED_waitStatus_signaled sig core h0 h127

/-- Witness for C9: the caller of `/bin/true` in the demonstration system. -/
theorem do_exec_redirect_same_result_witness :
    demoSys.fork ≠ 0 ∧
    ∃ b, (do_exec demoSys stdFds noFiles ["/bin/true"]).1 = Outcome.returned b ∧
      (do_exec_redirect demoSys stdFds noFiles "/tmp/out" ["/bin/true"]).1 =
        Outcome.returned b :=
  ⟨by decide,
    (do_exec_redirect_same_result demoSys stdFds noFiles "/tmp/out" ["/bin/true"]
      (by decide)).1⟩

/-! ## The claims about the order of the calls -/

theorem do_exec_fork_count (sys : Sys) (fds : FdTable) (files : Files)
    (command : List String) :
    (do_exec sys fds files command).2.trace.countP Call.isFork = 1 := by
  by_cases h1 : sys.fork = -1
  · rw [do_exec_fork_failed sys fds files command h1]
    simp [List.countP_cons, Call.isFork]
  · by_cases h0 : sys.fork = 0
    · rw [do_exec_child sys fds files command h0]
      split_ifs <;> simp [List.countP_cons, Call.isFork]
    · rw [do_exec_parent sys fds files command h1 h0]
      split_ifs <;> simp [List.countP_cons, Call.isFork]

theorem do_exec_redirect_fork_count (sys : Sys) (fds : FdTable) (files : Files)
    (outputfile : String) (command : List String) :
    (do_exec_redirect sys fds files outputfile command).2.trace.countP Call.isFork = 1 := by
  by_cases h1 : sys.fork = -1
  · rw [do_exec_redirect_fork_failed sys fds files outputfile command h1]
    simp [List.countP_cons, Call.isFork]
  · by_cases h0 : sys.fork = 0
    · rcases redirect_child_cases sys fds files outputfile command h0 with
        hc | ⟨fd, _, hc⟩ | ⟨fd, _, hc⟩
      · rw [hc]
        simp [List.countP_cons, Call.isFork]
      · rw [hc]
        simp [List.countP_cons, Call.isFork]
      · rw [hc]
        split_ifs <;> simp [List.countP_cons, Call.isFork]
    · rw [do_exec_redirect_parent sys fds files outputfile command h1 h0]
      split_ifs <;> simp [List.countP_cons, Call.isFork]

/-- C7: every execution of `do_exec` and of `do_exec_redirect` calls `fork` exactly
once.  When `fork` fails the function returns false and its only calls are that
`fork` and the `perror` that reports it (no `waitpid`, no `execv`).  When
`fork` succeeds, the parent returns a boolean after exactly these calls: the
`fork`, then one `waitpid` with options 0 on the pid that `fork` returned
(followed by a `perror` when `waitpid` failed). -/
theorem fork_once_wait_once (sys : Sys) (fds : FdTable) (files : Files)
    (outputfile : String) (command : List String) :
    ((do_exec sys fds files command).2.trace.countP Call.isFork = 1 ∧
      (do_exec_redirect sys fds files outputfile command).2.trace.countP Call.isFork = 1) ∧
    (sys.fork = -1 →
      ((do_exec sys fds files command).1 = Outcome.returned false ∧
        (do_exec sys fds files command).2.trace = [Call.fork (-1), Call.perror "fork"]) ∧
      ((do_exec_redirect sys fds files outputfile command).1 = Outcome.returned false ∧
        (do_exec_redirect sys fds files outputfile command).2.trace =
          [Call.fork (-1), Call.perror "fork"])) ∧
    (sys.fork ≠ -1 → sys.fork ≠ 0 →
      ((∃ b, (do_exec sys fds files command).1 = Outcome.returned b) ∧
        (do_exec sys fds files command).2.trace =
          [Call.fork sys.fork, Call.waitpid sys.fork 0 (sys.waitpid sys.fork 0).1] ++
            (if (sys.waitpid sys.fork 0).1 = -1 then [Call.perror "waitpid"] else []) ∧
        (do_exec sys fds files command).2.trace.countP Call.isWaitpid = 1 ∧
        (do_exec sys fds files command).2.trace.countP Call.isExecv = 0) ∧
      ((∃ b, (do_exec_redirect sys fds files outputfile command).1 = Outcome.returned b) ∧
        (do_exec_redirect sys fds files outputfile command).2.trace =
          [Call.fork sys.fork, Call.waitpid sys.fork 0 (sys.waitpid sys.fork 0).1] ++
            (if (sys.waitpid sys.fork 0).1 = -1 then [Call.perror "waitpid"] else []) ∧
        (do_exec_redirect sys fds files outputfile command).2.trace.countP
          Call.isWaitpid = 1 ∧
        (do_exec_redirect sys fds files outputfile command).2.trace.countP
          Call.isExecv = 0)) := by
  refine ⟨⟨do_exec_fork_count sys fds files command,
    do_exec_redirect_fork_count sys fds files outputfile command⟩, ?_, ?_⟩
  · intro h1
    rw [do_exec_fork_failed sys fds files command h1,
      do_exec_redirect_fork_failed sys fds files outputfile command h1]
    exact ⟨⟨rfl, rfl⟩, ⟨rfl, rfl⟩⟩
  · intro h1 h0
    rw [do_exec_parent sys fds files command h1 h0,
      do_exec_redirect_parent sys fds files outputfile command h1 h0]
    refine ⟨⟨⟨_, rfl⟩, rfl, ?_, ?_⟩, ⟨⟨_, rfl⟩, rfl, ?_, ?_⟩⟩ <;>
      split_ifs <;> simp [List.countP_cons, Call.isWaitpid, Call.isExecv]

/-! ## The child and the parent together -/

theorem call_do_exec_of_childEnd (sys : Sys) (fds : FdTable) (files files1 : Files)
    (command : List String) (t : Termination) (h0 : sys.fork ≠ 0)
    (hc : childEnd sys (do_exec (childSys sys) fds files command) = some (t, files1)) :
    ∃ files2, call_do_exec sys fds files command =
      some (Outcome.returned (decide (sys.fork ≠ -1) &&
        (decide ((sys.waitpid sys.fork 0).1 ≠ -1) &&
          (WIFEXITED (waitStatus t) && WEXITSTATUS (waitStatus t) == 0))), files2) ∧
      (sys.fork ≠ -1 → files2 = files1) := by
  by_cases h1 : sys.fork = -1
  · refine ⟨files, ?_, fun h => absurd h1 h⟩
    simp [call_do_exec, h1, do_exec_fork_failed sys fds files command h1]
  · refine ⟨files1, ?_, fun _ => rfl⟩
    have hp1 : (parentSys sys t).fork ≠ -1 := h1
    have hp0 : (parentSys sys t).fork ≠ 0 := h0
    simp only [call_do_exec, beq_iff_eq, h1, if_false, hc,
      do_exec_parent (parentSys sys t) fds files1 command hp1 hp0]
    simp [parentSys, h1]

theorem call_do_exec_redirect_of_childEnd (sys : Sys) (fds : FdTable) (files files1 : Files)
    (outputfile : String) (command : List String) (t : Termination) (h0 : sys.fork ≠ 0)
    (hc : childEnd sys (do_exec_redirect (childSys sys) fds files outputfile command) =
      some (t, files1)) :
    ∃ files2, call_do_exec_redirect sys fds files outputfile command =
      some (Outcome.returned (decide (sys.fork ≠ -1) &&
        (decide ((sys.waitpid sys.fork 0).1 ≠ -1) &&
          (WIFEXITED (waitStatus t) && WEXITSTATUS (waitStatus t) == 0))), files2) ∧
      (sys.fork ≠ -1 → files2 = files1) := by
  by_cases h1 : sys.fork = -1
  · refine ⟨files, ?_, fun h => absurd h1 h⟩
    simp [call_do_exec_redirect, h1,
      do_exec_redirect_fork_failed sys fds files outputfile command h1]
  · refine ⟨files1, ?_, fun _ => rfl⟩
    have hp1 : (parentSys sys t).fork ≠ -1 := h1
    have hp0 : (parentSys sys t).fork ≠ 0 := h0
    simp only [call_do_exec_redirect, beq_iff_eq, h1, if_false, hc,
      do_exec_redirect_parent (parentSys sys t) fds files1 outputfile command hp1 hp0]
    simp [parentSys, h1]

theorem WEXITSTATUS_EXIT_FAILURE :
    WEXITSTATUS (waitStatus (Termination.exited EXIT_FAILURE)) = 1 := by
  decide

/-- C4: when `execv` fails in the child of `do_exec`, the child makes no further
call than the `perror` that reports it and leaves through `exit(EXIT_FAILURE)`,
a non-zero status: it neither returns from `do_exec` nor reaches `waitpid`.
The caller's `do_exec` then returns false. -/
theorem do_exec_execv_failure (sys : Sys) (fds : FdTable) (files : Files)
    (command : List String) (hparent : sys.fork ≠ 0)
    (hfail : Call.execv command.head? command false ∈
      (do_exec (childSys sys) fds files command).2.trace) :
    (do_exec (childSys sys) fds files command).1 = Outcome.exited EXIT_FAILURE ∧
    EXIT_FAILURE ≠ 0 ∧
    (do_exec (childSys sys) fds files command).2.trace =
      [Call.fork 0, Call.execv command.head? command false, Call.perror "execv"] ∧
    (do_exec (childSys sys) fds files command).2.trace.countP Call.isWaitpid = 0 ∧
    call_do_exec sys fds files command = some (Outcome.returned false, files) := by
  have hch : (childSys sys).fork = 0 := rfl
  have hchild := do_exec_child (childSys sys) fds files command hch
  by_cases hl : (command.head?.bind (childSys sys).image).isSome = true
  · rw [hchild, if_pos hl] at hfail
    simp at hfail
  · rw [if_neg hl] at hchild
    have hend : childEnd sys (do_exec (childSys sys) fds files command) =
        some (Termination.exited EXIT_FAILURE, files) := by
      rw [hchild]
      rfl
    obtain ⟨files2, hcall, hfiles⟩ :=
      call_do_exec_of_childEnd sys fds files files command _ hparent hend
    have hfiles2 : files2 = files := by
      by_cases h1 : sys.fork = -1
      · simp [call_do_exec, h1] at hcall
        exact hcall.2.symm
      · exact hfiles h1
    rw [hcall, hchild, hfiles2]
    refine ⟨rfl, by decide, rfl, by simp [List.countP_cons, Call.isWaitpid], ?_⟩
    simp [WEXITSTATUS_EXIT_FAILURE]

/-- Witness for C4: `/bin/missing` cannot be loaded in the demonstration system. -/
theorem do_exec_execv_failure_witness :
    demoSys.fork ≠ 0 ∧
    Call.execv (["/bin/missing"] : List String).head? ["/bin/missing"] false ∈
      (do_exec (childSys demoSys) stdFds noFiles ["/bin/missing"]).2.trace ∧
    call_do_exec demoSys stdFds noFiles ["/bin/missing"] =
      some (Outcome.returned false, noFiles) :=
  ⟨by decide, by decide,
    (do_exec_execv_failure demoSys stdFds noFiles ["/bin/missing"] (by decide)
      (by decide)).2.2.2.2⟩

/-- C5: when `open` on the output file fails or `dup2` onto standard output fails
in the child of `do_exec_redirect`, the child leaves through
`exit(EXIT_FAILURE)`, a non-zero status, without ever calling `execv`; the
caller's `do_exec_redirect` then returns false. -/
theorem do_exec_redirect_setup_failure (sys : Sys) (fds : FdTable) (files : Files)
    (outputfile : String) (command : List String) (hparent : sys.fork ≠ 0)
    (hfail :
      Call.open_file outputfile (O_WRONLY ||| O_CREAT ||| O_TRUNC) 0o644 (-1) ∈
        (do_exec_redirect (childSys sys) fds files outputfile command).2.trace ∨
      ∃ fd, Call.dup2 fd STDOUT_FILENO (-1) ∈
        (do_exec_redirect (childSys sys) fds files outputfile command).2.trace) :
    (do_exec_redirect (childSys sys) fds files outputfile command).1 =
      Outcome.exited EXIT_FAILURE ∧
    EXIT_FAILURE ≠ 0 ∧
    (do_exec_redirect (childSys sys) fds files outputfile command).2.trace.countP
      Call.isExecv = 0 ∧
    ∃ files1, call_do_exec_redirect sys fds files outputfile command =
      some (Outcome.returned false, files1) := by
  have hch : (childSys sys).fork = 0 := rfl
  have hparentRes : ∀ files1,
      childEnd sys (do_exec_redirect (childSys sys) fds files outputfile command) =
        some (Termination.exited EXIT_FAILURE, files1) →
      ∃ files2, call_do_exec_redirect sys fds files outputfile command =
        some (Outcome.returned false, files2) := by
    intro files1 hend
    obtain ⟨files2, hcall, _⟩ :=
      call_do_exec_redirect_of_childEnd sys fds files files1 outputfile command _ hparent hend
    refine ⟨files2, ?_⟩
    rw [hcall]
    simp [WEXITSTATUS_EXIT_FAILURE]
  rcases redirect_child_cases (childSys sys) fds files outputfile command hch with
    hc | ⟨fd, _, hc⟩ | ⟨fd, _, hc⟩
  · refine ⟨by rw [hc], by decide, ?_, hparentRes files (by rw [hc]; rfl)⟩
    rw [hc]
    simp [List.countP_cons, Call.isExecv]
  · refine ⟨by rw [hc], by decide, ?_, hparentRes _ (by rw [hc]; rfl)⟩
    rw [hc]
    simp [List.countP_cons, Call.isExecv]
  · exfalso
    have hne : ((fd : Int) = -1) = False := by
      apply eq_false; omega
    rw [hc] at hfail
    rcases hfail with h | ⟨fd2, h⟩
    · split_ifs at h <;> simp [hne] at h
    · split_ifs at h <;> simp [STDOUT_FILENO] at h

/-- Witness for C5: no file can be opened in `readOnlySys`. -/
theorem do_exec_redirect_setup_failure_witness :
    readOnlySys.fork ≠ 0 ∧
    Call.open_file "/tmp/out" (O_WRONLY ||| O_CREAT ||| O_TRUNC) 0o644 (-1) ∈
      (do_exec_redirect (childSys readOnlySys) stdFds noFiles "/tmp/out"
        ["/bin/hello"]).2.trace ∧
    (do_exec_redirect (childSys readOnlySys) stdFds noFiles "/tmp/out" ["/bin/hello"]).1 =
      Outcome.exited EXIT_FAILURE ∧
    (do_exec_redirect (childSys readOnlySys) stdFds noFiles "/tmp/out"
      ["/bin/hello"]).2.trace.countP Call.isExecv = 0 :=
  ⟨by decide, by decide,
    (do_exec_redirect_setup_failure readOnlySys stdFds noFiles "/tmp/out" ["/bin/hello"]
      (by decide) (Or.inl (by decide))).1,
    (do_exec_redirect_setup_failure readOnlySys stdFds noFiles "/tmp/out" ["/bin/hello"]
      (by decide) (Or.inl (by decide))).2.2.1⟩

/-! ## Exit values -/

/-- C3, as stated, fails: the program `/bin/exit256` runs and exits with the
non-zero value 256, of which the parent receives the low eight bits, and
`do_exec` returns true. -/
theorem do_exec_exit_256_returns_true :
    demoSys.fork ≠ -1 ∧ demoSys.fork ≠ 0 ∧
    (["/bin/exit256"] : List String).head?.bind demoSys.image = some (writer [] 256) ∧
    (writer [] 256 ["/bin/exit256"] stdFds noFiles).2 = Termination.exited 256 ∧
    (256 : Int) ≠ 0 ∧
    (call_do_exec demoSys stdFds noFiles ["/bin/exit256"]).map Prod.fst =
      some (Outcome.returned true) :=
  ⟨by decide, by decide, rfl, rfl, by decide, by decide⟩

/-- C3, amended: when the program of a command vector runs and exits with a value
`N` whose low eight bits are not all zero (`N % 256 ≠ 0`), `do_exec` returns
false. -/
theorem do_exec_nonzero_exit (sys : Sys) (fds : FdTable) (files : Files)
    (command : List String) (prog : Program) (N : Int)
    (hfork : sys.fork ≠ -1) (hparent : sys.fork ≠ 0)
    (hprog : command.head?.bind sys.image = some prog)
    (hexit : (prog command fds files).2 = Termination.exited N)
    (hN : N % 256 ≠ 0) :
    call_do_exec sys fds files command =
      some (Outcome.returned false, (prog command fds files).1) := by
  have hch : (childSys sys).fork = 0 := rfl
  have hchild := do_exec_child (childSys sys) fds files command hch
  have hl : (command.head?.bind (childSys sys).image).isSome = true := by
    show (command.head?.bind sys.image).isSome = true
    rw [hprog]
    rfl
  rw [if_pos hl] at hchild
  have hend : childEnd sys (do_exec (childSys sys) fds files command) =
      some (Termination.exited N, (prog command fds files).1) := by
    rw [hchild]
    simp [childEnd, hprog, hexit]
  obtain ⟨files2, hcall, hfiles⟩ :=
    call_do_exec_of_childEnd sys fds files _ command _ hparent hend
  rw [hcall, hfiles hfork, WEXITSTATUS_waitStatus_exited]
  simp [hN]

/-- Witness for C3, amended: `/bin/false` exits with 1. -/
theorem do_exec_nonzero_exit_witness :
    demoSys.fork ≠ -1 ∧ demoSys.fork ≠ 0 ∧
    (["/bin/false"] : List String).head?.bind demoSys.image = some (writer [] 1) ∧
    (writer [] 1 ["/bin/false"] stdFds noFiles).2 = Termination.exited 1 ∧
    (1 : Int) % 256 ≠ 0 ∧
    call_do_exec demoSys stdFds noFiles ["/bin/false"] =
      some (Outcome.returned false, (writer [] 1 ["/bin/false"] stdFds noFiles).1) :=
  ⟨by decide, by decide, rfl, rfl, by decide,
    do_exec_nonzero_exit demoSys stdFds noFiles ["/bin/false"] (writer [] 1) 1
      (by decide) (by decide) rfl rfl (by decide)⟩

/-! ## Redirection -/

/-- One successful call of `do_exec_redirect` on a program that writes `content`,
when `open` does not return descriptor 1: the call returns true and the output
file holds exactly `content`. -/
theorem call_do_exec_redirect_writer (sys : Sys) (fds : FdTable) (files : Files)
    (outputfile : String) (command : List String) (content : Bytes)
    (hnot1 : lowestFree fds sys.nofile ≠ some 1)
    (h : RunsWriter sys fds outputfile command content) :
    call_do_exec_redirect sys fds files outputfile command =
      some (Outcome.returned true,
        setFile (setFile files outputfile []) outputfile content) := by
  obtain ⟨fd, hl⟩ := Option.isSome_iff_exists.1 h.free
  have hfd : fd ≠ 1 := by
    intro h1
    rw [h1] at hl
    exact hnot1 hl
  have hfd2 : (1 : Nat) ≠ fd := fun e => hfd e.symm
  have hch : (childSys sys).fork = 0 := rfl
  have hchild := redirect_child_execv (childSys sys) fds files outputfile command fd hch
    h.open_ok hl h.limit h.dup2_ok
  have hl2 : (command.head?.bind (childSys sys).image).isSome = true := by
    show (command.head?.bind sys.image).isSome = true
    rw [h.prog]
    rfl
  rw [if_pos hl2, if_pos hl2, if_neg hfd] at hchild
  have hend : childEnd sys (do_exec_redirect (childSys sys) fds files outputfile command) =
      some (Termination.exited 0,
        setFile (setFile files outputfile []) outputfile content) := by
    rw [hchild]
    simp [childEnd, h.prog, writer, sys_write, setFd_other _ _ _ _ hfd2, setFd_same,
      redirect_flags_accmode, setFile]
  obtain ⟨files2, hcall, hfiles⟩ :=
    call_do_exec_redirect_of_childEnd sys fds files _ outputfile command _ h.parent hend
  rw [hcall, hfiles h.fork_ok]
  have hw := h.wait_ok
  have hf := h.fork_ok
  have hx : WEXITSTATUS (waitStatus (Termination.exited 0)) = 0 := by decide
  have he : WIFEXITED (waitStatus (Termination.exited 0)) = true := by decide
  simp [hw, hf, hx, he]

/-- Two calls of `do_exec_redirect` on the same path, in each of which every call
succeeds and `open` does not return descriptor 1, with a program that writes
`A` and then a program that writes `B`, both exiting 0: both calls return true,
the file holds exactly `A` after the first and exactly `B` after the second. -/
theorem redirect_twice_when_open_not_1 (sys1 sys2 : Sys) (fds : FdTable) (files : Files)
    (outputfile : String) (cmd1 cmd2 : List String) (A B : Bytes)
    (hnot1 : lowestFree fds sys1.nofile ≠ some 1)
    (hnot2 : lowestFree fds sys2.nofile ≠ some 1)
    (h1 : RunsWriter sys1 fds outputfile cmd1 A)
    (h2 : RunsWriter sys2 fds outputfile cmd2 B) :
    ∃ files1 files2,
      call_do_exec_redirect sys1 fds files outputfile cmd1 =
        some (Outcome.returned true, files1) ∧
      files1 outputfile = some A ∧
      call_do_exec_redirect sys2 fds files1 outputfile cmd2 =
        some (Outcome.returned true, files2) ∧
      files2 outputfile = some B := by
  refine ⟨_, _, call_do_exec_redirect_writer sys1 fds files outputfile cmd1 A hnot1 h1, ?_,
    call_do_exec_redirect_writer sys2 fds _ outputfile cmd2 B hnot2 h2, ?_⟩
  · simp [setFile]
  · simp [setFile]

/-- In the demonstration system `/bin/hello` writes "hello". -/
theorem demoSys_runs_hello :
    RunsWriter demoSys stdFds "/tmp/out" ["/bin/hello"] [104, 101, 108, 108, 111] :=
  ⟨by decide, by decide, rfl, by decide, by decide, rfl, rfl, by decide⟩

/-- In the demonstration system `/bin/bye` writes "bye". -/
theorem demoSys_runs_bye :
    RunsWriter demoSys stdFds "/tmp/out" ["/bin/bye"] [98, 121, 101] :=
  ⟨by decide, by decide, rfl, by decide, by decide, rfl, rfl, by decide⟩

/-- With the standard descriptors open: "hello" and then "bye" written to
`/tmp/out` leave "bye". -/
theorem redirect_twice_std_example :
    ∃ files1 files2,
      call_do_exec_redirect demoSys stdFds noFiles "/tmp/out" ["/bin/hello"] =
        some (Outcome.returned true, files1) ∧
      files1 "/tmp/out" = some [104, 101, 108, 108, 111] ∧
      call_do_exec_redirect demoSys stdFds files1 "/tmp/out" ["/bin/bye"] =
        some (Outcome.returned true, files2) ∧
      files2 "/tmp/out" = some [98, 121, 101] :=
  redirect_twice_when_open_not_1 demoSys demoSys stdFds noFiles "/tmp/out" ["/bin/hello"]
    ["/bin/bye"] [104, 101, 108, 108, 111] [98, 121, 101] (by decide) (by decide)
    demoSys_runs_hello demoSys_runs_bye

/-- With descriptors 0 and 1 both closed `open` returns 0 and the redirection
works: "hello" and then "bye" written to `/tmp/out` leave "bye". -/
theorem redirect_twice_closed_stdin_stdout_example :
    ∃ files1 files2,
      call_do_exec_redirect demoSys closedStdinStdout noFiles "/tmp/out" ["/bin/hello"] =
        some (Outcome.returned true, files1) ∧
      files1 "/tmp/out" = some [104, 101, 108, 108, 111] ∧
      call_do_exec_redirect demoSys closedStdinStdout files1 "/tmp/out" ["/bin/bye"] =
        some (Outcome.returned true, files2) ∧
      files2 "/tmp/out" = some [98, 121, 101] :=
  redirect_twice_when_open_not_1 demoSys demoSys closedStdinStdout noFiles "/tmp/out"
    ["/bin/hello"] ["/bin/bye"] [104, 101, 108, 108, 111] [98, 121, 101] (by decide)
    (by decide)
    ⟨by decide, by decide, rfl, by decide, by decide, rfl, rfl, by decide⟩
    ⟨by decide, by decide, rfl, by decide, by decide, rfl, rfl, by decide⟩

/-- C8 fails on the code: in a caller whose descriptor 0 is open and descriptor 1 is
closed, with every call succeeding, `do_exec_redirect` is called on `/tmp/out`
with a program that writes "hello" and exits 0 and then with a program that
writes "bye" and exits 0.  Both calls return true, but each child runs its
program with standard output closed, and the file is empty after the first
call and after the second: it does not hold "bye". -/
theorem redirect_twice_closed_stdout :
    RunsWriter demoSys closedStdout "/tmp/out" ["/bin/hello"] [104, 101, 108, 108, 111] ∧
    RunsWriter demoSys closedStdout "/tmp/out" ["/bin/bye"] [98, 121, 101] ∧
    (call_do_exec_redirect demoSys closedStdout noFiles "/tmp/out" ["/bin/hello"]).bind
      (fun r1 =>
        (call_do_exec_redirect demoSys closedStdout r1.2 "/tmp/out" ["/bin/bye"]).map
          (fun r2 => (r1.1, r1.2 "/tmp/out", r2.1, r2.2 "/tmp/out"))) =
      some (Outcome.returned true, some [], Outcome.returned true, some []) ∧
    (do_exec_redirect (childSys demoSys) closedStdout
      (setFile noFiles "/tmp/out" []) "/tmp/out" ["/bin/bye"]).2.fds 1 = none ∧
    (some [] : Option Bytes) ≠ some [98, 121, 101] :=
  ⟨⟨by decide, by decide, rfl, by decide, by decide, rfl, rfl, by decide⟩,
    ⟨by decide, by decide, rfl, by decide, by decide, rfl, rfl, by decide⟩,
    by decide, by decide, by decide⟩

/-- C6 fails on the code: started with descriptor 0 open and descriptor 1 closed,
the child's `open` returns 1, `dup2(1, 1)` changes nothing and `close(1)`
closes the file again, so `execv` replaces the image while standard output is
closed.  The program's output is lost: the caller still gets true, and the
output file is left empty. -/
theorem do_exec_redirect_closed_stdout :
    closedStdout 0 = some (Desc.inherited 0) ∧ closedStdout 1 = none ∧
    (do_exec_redirect (childSys demoSys) closedStdout noFiles "/tmp/out"
      ["/bin/hello"]).2.trace =
      [Call.fork 0, Call.open_file "/tmp/out" (O_WRONLY ||| O_CREAT ||| O_TRUNC) 0o644 1,
        Call.dup2 1 1 1, Call.close 1 0,
        Call.execv (some "/bin/hello") ["/bin/hello"] true] ∧
    (do_exec_redirect (childSys demoSys) closedStdout noFiles "/tmp/out" ["/bin/hello"]).1 =
      Outcome.replaced (some "/bin/hello") ["/bin/hello"] ∧
    (do_exec_redirect (childSys demoSys) closedStdout noFiles "/tmp/out"
      ["/bin/hello"]).2.fds 1 = none ∧
    (call_do_exec_redirect demoSys closedStdout noFiles "/tmp/out" ["/bin/hello"]).map
      Prod.fst = some (Outcome.returned true) ∧
    (call_do_exec_redirect demoSys closedStdout noFiles "/tmp/out" ["/bin/hello"]).bind
      (fun r => r.2 "/tmp/out") = some [] :=
  ⟨by decide, by decide, by decide, by decide, by decide, by decide, by decide⟩

/-- Whenever the child of `do_exec_redirect` calls `execv` after `open` returned a
descriptor other than 1, descriptor 1 refers to the output file, opened
write-only with create and truncate and mode 0644, and every other descriptor
is as the child inherited it. -/
theorem do_exec_redirect_stdout_redirected (sys : Sys) (fds : FdTable) (files : Files)
    (outputfile : String) (command : List String) (loaded : Bool)
    (hchild : sys.fork = 0)
    (hexec : Call.execv command.head? command loaded ∈
      (do_exec_redirect sys fds files outputfile command).2.trace)
    (hfd : Call.open_file outputfile (O_WRONLY ||| O_CREAT ||| O_TRUNC) 0o644 1 ∉
      (do_exec_redirect sys fds files outputfile command).2.trace) :
    (do_exec_redirect sys fds files outputfile command).2.fds 1 =
      some (Desc.opened outputfile (O_WRONLY ||| O_CREAT ||| O_TRUNC) 0o644) ∧
    ∀ n, n ≠ 1 → (do_exec_redirect sys fds files outputfile command).2.fds n = fds n := by
  rcases redirect_child_cases sys fds files outputfile command hchild with
    hc | ⟨fd, _, hc⟩ | ⟨fd, hfree, hc⟩
  · rw [hc] at hexec
    simp at hexec
  · rw [hc] at hexec
    simp at hexec
  · have hne : fd ≠ 1 := by
      intro h1
      apply hfd
      rw [hc, h1]
      simp
    have hne2 : (1 : Nat) ≠ fd := fun e => hne e.symm
    rw [hc]
    simp only [if_neg hne]
    refine ⟨by rw [setFd_other _ _ _ _ hne2, setFd_same], ?_⟩
    intro n hn
    by_cases hnf : n = fd
    · rw [hnf, setFd_same, hfree]
    · rw [setFd_other _ _ _ _ hnf, setFd_other _ _ _ _ hn, setFd_other _ _ _ _ hnf]

/-- C10: on every path of `do_exec_redirect`, a descriptor that `open` returned for
the output file is closed when the process leaves the function: it was closed
by `close` before any `execv`, and nothing is open under its number at the
end (after a failed `open` there is no descriptor at all). -/
theorem do_exec_redirect_releases_fd (sys : Sys) (fds : FdTable) (files : Files)
    (outputfile : String) (command : List String) (flags mode : Nat) (fd : Int)
    (hopen : Call.open_file outputfile flags mode fd ∈
      (do_exec_redirect sys fds files outputfile command).2.trace)
    (hfd : fd ≠ -1) :
    (do_exec_redirect sys fds files outputfile command).2.fds fd.toNat = none ∧
    Call.close fd 0 ∈ (do_exec_redirect sys fds files outputfile command).2.trace ∧
    ∀ path argv loaded,
      Call.execv path argv loaded ∈
        (do_exec_redirect sys fds files outputfile command).2.trace →
      ∃ before after,
        (do_exec_redirect sys fds files outputfile command).2.trace =
          before ++ Call.execv path argv loaded :: after ∧
        Call.close fd 0 ∈ before ∧
        after.countP Call.isExecv = 0 := by
  by_cases h1 : sys.fork = -1
  · rw [do_exec_redirect_fork_failed sys fds files outputfile command h1] at hopen
    simp at hopen
  · by_cases h0 : sys.fork = 0
    · rcases redirect_child_cases sys fds files outputfile command h0 with
        hc | ⟨n, _, hc⟩ | ⟨n, _, hc⟩
      · rw [hc] at hopen
        simp at hopen
        exact absurd hopen.2.2 hfd
      · rw [hc] at hopen ⊢
        simp at hopen
        obtain ⟨_, _, hn⟩ := hopen
        subst hn
        refine ⟨by simp [setFd_same], by simp, ?_⟩
        intro path argv loaded hex
        simp at hex
      · rw [hc] at hopen ⊢
        have hopen2 : fd = (n : Int) := by
          split_ifs at hopen <;> simp at hopen <;> exact hopen.2.2
        subst hopen2
        refine ⟨?_, by simp, ?_⟩
        · by_cases hn1 : n = 1
          · simp [hn1, setFd_same]
          · simp [hn1, setFd_same]
        · intro path argv loaded hex
          have hex2 : Call.execv path argv loaded =
              Call.execv command.head? command (command.head?.bind sys.image).isSome := by
            split_ifs at hex <;> simp at hex <;> simp [hex]
          rw [hex2]
          refine ⟨[Call.fork 0,
            Call.open_file outputfile (O_WRONLY ||| O_CREAT ||| O_TRUNC) 0o644 n,
            Call.dup2 n 1 1, Call.close n 0],
            if (command.head?.bind sys.image).isSome then [] else [Call.perror "execv"],
            by simp, by simp, ?_⟩
          split_ifs <;> simp [List.countP_cons, Call.isExecv]
    · rw [do_exec_redirect_parent sys fds files outputfile command h1 h0] at hopen
      split_ifs at hopen <;> simp at hopen

/-- Witness for C10: with the standard descriptors open, `open` returns 3 in the
child, and 3 is closed again when `execv` is called. -/
theorem do_exec_redirect_releases_fd_witness :
    Call.open_file "/tmp/out" (O_WRONLY ||| O_CREAT ||| O_TRUNC) 0o644 3 ∈
      (do_exec_redirect (childSys demoSys) stdFds noFiles "/tmp/out"
        ["/bin/hello"]).2.trace ∧
    (3 : Int) ≠ -1 ∧
    (do_exec_redirect (childSys demoSys) stdFds noFiles "/tmp/out"
      ["/bin/hello"]).2.fds (3 : Int).toNat = none ∧
    Call.close 3 0 ∈
      (do_exec_redirect (childSys demoSys) stdFds noFiles "/tmp/out"
        ["/bin/hello"]).2.trace :=
  ⟨by decide, by decide,
    (do_exec_redirect_releases_fd (childSys demoSys) stdFds noFiles "/tmp/out"
      ["/bin/hello"] (O_WRONLY ||| O_CREAT ||| O_TRUNC) 0o644 3 (by decide) (by decide)).1,
    (do_exec_redirect_releases_fd (childSys demoSys) stdFds noFiles "/tmp/out"
      ["/bin/hello"] (O_WRONLY ||| O_CREAT ||| O_TRUNC) 0o644 3 (by decide) (by decide)).2.1⟩

end Systemcalls
